import Mathlib

/-
Verification of the WiFi/network diagnostic tool (ultimate-wifi-fixer.py).

The Python source is shallowly embedded as executable Lean definitions.
Strings are handled through their character lists, with structurally
recursive helpers mirroring the Python string methods used by the source
(split on a single character, strip, startswith, substring containment,
str.isdigit, int() on digit strings, upper/lower/capitalize).  Calls to
re.search / re.findall with a fixed pattern are abstracted as function
parameters (oracles) returning the matched groups, and subprocess
execution is abstracted as explicit outcome values; everything else is
translated line by line from the source.
-/

namespace WifiFixer

/-- Splits a character list at every occurrence of the separator, modelling
Python str.split(sep) for a one-character separator. -/
def splitOnCharList (sep : Char) : List Char → List (List Char)
  | [] => [[]]
  | c :: cs =>
    match splitOnCharList sep cs with
    | [] => [[]]
    | h :: t => if c = sep then [] :: h :: t else (c :: h) :: t

/-- Python s.split(sep) for a one-character separator. -/
def pySplit (s : String) (sep : Char) : List String :=
  (splitOnCharList sep s.data).map (fun cs => (⟨cs⟩ : String))

/-- Python s.strip() (for the ASCII whitespace the inputs contain). -/
def pyStrip (s : String) : String :=
  ⟨((s.data.dropWhile Char.isWhitespace).reverse.dropWhile Char.isWhitespace).reverse⟩

/-- Python s.startswith(p). -/
def pyStartsWith (s p : String) : Bool :=
  p.data.isPrefixOf s.data

/-- Containment of one character list in another. -/
def listInfixOf [BEq α] : List α → List α → Bool
  | p, [] => p.isEmpty
  | p, a :: l => p.isPrefixOf (a :: l) || listInfixOf p (l : List α)

/-- Python `p in s` substring test. -/
def pyContains (s p : String) : Bool :=
  listInfixOf p.data s.data

/-- Python s.isdigit() (for the ASCII digits the inputs contain). -/
def pyIsDigit (s : String) : Bool :=
  !s.data.isEmpty && s.data.all Char.isDigit

/-- Value of a decimal digit list, modelling Python int() on an
all-digit string. -/
def digitsToNat (cs : List Char) : Nat :=
  cs.foldl (fun n c => 10 * n + (c.toNat - 48)) 0

/-- Python int(s) for a string that passed s.isdigit(). -/
def pyInt (s : String) : Nat :=
  digitsToNat s.data

/-- Everything after the first occurrence of the separator, modelling
Python s.split(sep, 1)[1]; none when the separator is absent (where the
source would raise IndexError — the embedding is only applied to lines
that contain the separator). -/
def afterFirstChar (sep : Char) : List Char → Option (List Char)
  | [] => none
  | c :: cs => if c = sep then some cs else afterFirstChar sep cs

/-- Python line.split(":", 1)[1] as an Option. -/
def pyAfterColon (s : String) : Option String :=
  (afterFirstChar ':' s.data).map (fun cs => (⟨cs⟩ : String))

/-- Python s.upper() (ASCII). -/
def pyUpper (s : String) : String :=
  ⟨s.data.map Char.toUpper⟩

/-- Python s.lower() (ASCII). -/
def pyLower (s : String) : String :=
  ⟨s.data.map Char.toLower⟩

/-- Python s.capitalize() (ASCII): first character upper-cased, the rest
lower-cased. -/
def pyCapitalize (s : String) : String :=
  match s.data with
  | [] => ""
  | c :: cs => ⟨c.toUpper :: cs.map Char.toLower⟩

/-- Python s[:n]. -/
def pyTake (s : String) (n : Nat) : String :=
  ⟨s.data.take n⟩

/-- Python len(s). -/
def pyLen (s : String) : Nat :=
  s.data.length

/-- Python truthiness of an Optional[str]: None and the empty string are
falsy. -/
def optTruthy : Option String → Bool
  | none => false
  | some s => !(s == "")

/-- The NetworkInterface dataclass of the source. -/
structure NetworkInterface where
  name : String
  type : String
  status : String
  mac_address : String
  ip_address : Option String
  gateway : Option String
  dns_servers : List String
  signal_strength : Option Int
  frequency : Option String
  channel : Option Int
deriving DecidableEq

/-- The WiFiNetwork dataclass of the source. -/
structure WiFiNetwork where
  ssid : String
  bssid : String
  channel : Int
  frequency : String
  signal_strength : Int
  quality : Int
  encryption : String
  vendor : Option String
deriving DecidableEq

/-- An issue dict as appended by diagnose_issues and its helpers. -/
structure Issue where
  type : String
  severity : String
  description : String
  solution : String
deriving DecidableEq

/-- A fix-result dict as returned by the fix helpers. -/
structure FixResult where
  issue : String
  fix : String
  success : Bool
deriving DecidableEq

/-- UltimateWiFiFixer._calculate_wifi_quality. -/
def calculate_wifi_quality (signal_strength : Int) : Int :=
  if signal_strength ≥ -50 then 100
  else if signal_strength ≥ -60 then 70
  else if signal_strength ≥ -70 then 50
  else if signal_strength ≥ -80 then 30
  else 10

/-- The static OUI table of _get_vendor_from_mac. -/
def oui_map : List (String × String) :=
  [("00:03:93", "Apple"), ("00:0A:95", "Apple"), ("00:17:F2", "Apple"),
   ("28:CF:E9", "Apple"), ("A4:5E:60", "Apple"), ("00:1B:63", "Apple"),
   ("58:55:CA", "Apple"), ("00:26:08", "Apple"), ("3C:15:C2", "Apple"),
   ("00:50:56", "VMware"), ("08:00:27", "VirtualBox")]

/-- UltimateWiFiFixer._get_vendor_from_mac. -/
def get_vendor_from_mac (mac_address : String) : Option String :=
  if mac_address == "" || pyLen mac_address < 8 then none
  else oui_map.lookup (pyUpper (pyTake mac_address 8))

/-- Outcome of one subprocess.run call, abstracting process execution:
the process either completes with a return code and captured streams,
exceeds the timeout (subprocess.TimeoutExpired), or the call raises some
other exception with a message. -/
inductive ExecOutcome where
  | completed (returncode : Int) (stdout stderr : String)
  | timedOut
  | raised (message : String)
deriving DecidableEq

/-- UltimateWiFiFixer.run_command: converts any execution outcome into a
(success, stdout, stderr) triple.  Being a total Lean function, it models
that the source method never lets an exception escape. -/
def run_command (outcome : ExecOutcome) (timeout : Nat) : Bool × String × String :=
  match outcome with
  | .completed rc out err => (rc == 0, out, err)
  | .timedOut => (false, "", "Command timed out after " ++ toString timeout ++ "s")
  | .raised msg => (false, "", msg)

/-- One step of the line loop of _parse_linux_interface_nmcli over the
output of `nmcli -t -f IP4.ADDRESS,IP4.GATEWAY,IP4.DNS device show`.  The
accumulator is (ip_address, gateway, dns_servers).  The IPv4 regex search
re.search(r"(\d+\.\d+\.\d+\.\d+)", line) is abstracted as `ipv4`. -/
def nmcliIpStep (ipv4 : String → Option String)
    (acc : Option String × Option String × List String) (line : String) :
    Option String × Option String × List String :=
  if pyStartsWith line "IP4.ADDRESS" then
    match ipv4 line with
    | some ip => (some ip, acc.2.1, acc.2.2)
    | none => acc
  else if pyStartsWith line "IP4.GATEWAY" then
    (acc.1, some (pyStrip ((pyAfterColon line).getD "")), acc.2.2)
  else if pyStartsWith line "IP4.DNS" then
    let dns := pyStrip ((pyAfterColon line).getD "")
    if dns == "" then acc else (acc.1, acc.2.1, acc.2.2 ++ [dns])
  else acc

/-- The connected-network loop of _parse_linux_interface_nmcli over the
lines of `nmcli -t -f IN-USE,SIGNAL,FREQ,CHAN device wifi list`: the first
line starting with a star is split on colons and, when it has at least
four parts, yields (signal_strength, frequency, channel); the loop breaks
at that line either way. -/
def nmcliConnectedWifi : List String → Option Int × Option String × Option Int
  | [] => (none, none, none)
  | line :: rest =>
    if pyStartsWith line "*" then
      match pySplit line ':' with
      | _ :: p1 :: p2 :: p3 :: _ =>
        ((if pyIsDigit p1 then some ((pyInt p1 : Nat) : Int) else none),
         some p2,
         (if pyIsDigit p3 then some ((pyInt p3 : Nat) : Int) else none))
      | _ => (none, none, none)
    else nmcliConnectedWifi rest

/-- UltimateWiFiFixer._parse_linux_interface_nmcli.  The three command
results are (success, stdout, stderr) triples for the `nmcli device show`,
`cat /sys/class/net/<dev>/address` and `nmcli device wifi list` calls. -/
def parse_linux_interface_nmcli (device iface_type state _connection : String)
    (ipShow macCat wifiList : Bool × String × String)
    (ipv4 : String → Option String) : NetworkInterface :=
  let ipRes :=
    if ipShow.1 then
      (pySplit ipShow.2.1 '\n').foldl (nmcliIpStep ipv4) (none, none, [])
    else (none, none, [])
  let mac_address := if macCat.1 then pyStrip macCat.2.1 else ""
  let wifiInfo :=
    if iface_type == "wifi" then
      (if wifiList.1 then nmcliConnectedWifi (pySplit wifiList.2.1 '\n')
       else (none, none, none))
    else (none, none, none)
  { name := device
    type := pyCapitalize iface_type
    status := state
    mac_address := mac_address
    ip_address := ipRes.1
    gateway := ipRes.2.1
    dns_servers := ipRes.2.2
    signal_strength := wifiInfo.1
    frequency := wifiInfo.2.1
    channel := wifiInfo.2.2 }

/-- Command results consumed by _parse_linux_interface_legacy:
os.path.exists on the sysfs node, and the (success, stdout, stderr)
triples of `ip addr show`, `cat .../address`, `iwconfig` and
`iwlist <if> channel`. -/
structure LegacyCmds where
  sysfsExists : Bool
  ipAddrShow : Bool × String × String
  macCat : Bool × String × String
  iwconfigRes : Bool × String × String
  iwlistChan : Bool × String × String
deriving DecidableEq

/-- Oracles for the regex searches of _parse_linux_interface_legacy:
inet (\d+\.\d+\.\d+\.\d+), Signal level=(-?\d+), Frequency:(\d+\.\d+) and
Current Frequency.*Channel (\d+). -/
structure LegacyRegex where
  inet : String → Option String
  signalLevel : String → Option Int
  freqGhz : String → Option String
  currentChannel : String → Option Nat

/-- UltimateWiFiFixer._parse_linux_interface_legacy. -/
def parse_linux_interface_legacy (interface_name : String)
    (cmds : LegacyCmds) (rx : LegacyRegex) : Option NetworkInterface :=
  if !cmds.sysfsExists then none
  else if !cmds.ipAddrShow.1 then none
  else
    let output := cmds.ipAddrShow.2.1
    let ip_address := rx.inet output
    let mac_address := if cmds.macCat.1 then pyStrip cmds.macCat.2.1 else ""
    let wireless := cmds.iwconfigRes
    let iface_type :=
      if wireless.1 && pyContains wireless.2.1 "IEEE 802.11" then "WiFi"
      else "Ethernet"
    let signal_strength :=
      if iface_type == "WiFi" then rx.signalLevel wireless.2.1 else none
    let frequency :=
      if iface_type == "WiFi" then (rx.freqGhz wireless.2.1).map (· ++ " GHz")
      else none
    let channel :=
      if iface_type == "WiFi" then
        (if cmds.iwlistChan.1 then
          (rx.currentChannel cmds.iwlistChan.2.1).map (fun n => (n : Int))
         else none)
      else none
    some { name := interface_name
           type := iface_type
           status := if optTruthy ip_address then "up" else "down"
           mac_address := mac_address
           ip_address := ip_address
           gateway := none
           dns_servers := []
           signal_strength := signal_strength
           frequency := frequency
           channel := channel }

/-- Oracles for the regex searches of _parse_mac_interface:
inet (\d+\.\d+\.\d+\.\d+), the re.findall of
nameserver\[\d+\] : (\d+\.\d+\.\d+\.\d+), agrCtlRSSI: (-?\d+),
channel: (\d+) and (\d+\.\d+). -/
structure MacRegex where
  inet : String → Option String
  nameservers : String → List String
  rssi : String → Option Int
  airportChannel : String → Option Nat
  ghz : String → Option String

/-- The scutil DNS post-processing of _parse_mac_interface:
list(set(dns_matches)).  Multiplicity is modelled by List.dedup; the
iteration order of a Python set is unspecified, and no claim depends on
the order of dns_servers. -/
def scutil_dns_servers (dns_matches : List String) : List String :=
  dns_matches.dedup

/-- UltimateWiFiFixer._parse_mac_interface.  The interface_data dict is
passed as its three optional entries, followed by the (success, stdout,
stderr) triples of `ifconfig <dev>`, `scutil --dns` and `airport -I`. -/
def parse_mac_interface (nameEntry device mac : Option String)
    (ifconfigRes scutilRes airportRes : Bool × String × String)
    (rx : MacRegex) : NetworkInterface :=
  let dev := device.getD ""
  let ip_address := if ifconfigRes.1 then rx.inet ifconfigRes.2.1 else none
  let dns_servers :=
    if scutilRes.1 then scutil_dns_servers (rx.nameservers scutilRes.2.1)
    else []
  let isWifi :=
    pyContains (pyLower (nameEntry.getD "")) "wi-fi" ||
      pyContains (pyLower dev) "wifi"
  let wifiInfo :=
    if isWifi then
      (if airportRes.1 then
        (rx.rssi airportRes.2.1,
         (rx.airportChannel airportRes.2.1).map (fun n => (n : Int)),
         (rx.ghz airportRes.2.1).map (· ++ " GHz"))
       else (none, none, none))
    else (none, none, none)
  { name := nameEntry.getD "Unknown"
    type := if pyContains (pyLower (nameEntry.getD "")) "wi-fi" then "WiFi"
            else "Ethernet"
    status := if optTruthy ip_address then "active" else "inactive"
    mac_address := mac.getD ""
    ip_address := ip_address
    gateway := none
    dns_servers := dns_servers
    signal_strength := wifiInfo.1
    frequency := wifiInfo.2.2
    channel := wifiInfo.2.1 }

/-- The regex and substring probes the source applies to the text of one
iwlist scan cell: ESSID:"([^"]*)", Address: ([A-Fa-f0-9:]\x7b17\x7d),
Channel:(\d+), Signal level=(-?\d+), and the "Privacy:on" / "WPA2" /
"WPA" containment tests. -/
structure IwlistCell where
  essid : Option String
  address : Option String
  channel : Option Nat
  signal : Option Int
  privacyOn : Bool
  hasWPA2 : Bool
  hasWPA : Bool
deriving DecidableEq

/-- The per-cell body of _parse_iwlist_scan, building one WiFiNetwork
from the probed fields with the documented defaults. -/
def parse_iwlist_cell (c : IwlistCell) : WiFiNetwork :=
  let ssid := c.essid.getD "Hidden"
  let bssid := c.address.getD ""
  let channel : Int := ((c.channel.getD 0 : Nat) : Int)
  let signal := c.signal.getD (-100)
  let encryption :=
    if c.privacyOn then
      (if c.hasWPA2 then "WPA2" else if c.hasWPA then "WPA" else "WEP")
    else "Open"
  let frequency := if channel ≤ 14 then "2.4 GHz" else "5 GHz"
  { ssid := ssid
    bssid := bssid
    channel := channel
    frequency := frequency
    signal_strength := signal
    quality := calculate_wifi_quality signal
    encryption := encryption
    vendor := get_vendor_from_mac bssid }

/-- UltimateWiFiFixer._parse_iwlist_scan over the cell texts following
the first "Cell " marker: every cell is processed independently (the
per-cell try/except of the source never lets one cell abort the rest). -/
def parse_iwlist_scan (cells : List IwlistCell) : List WiFiNetwork :=
  cells.map parse_iwlist_cell

/-- The issue dict appended by _check_channel_congestion for a congested
channel holding n networks. -/
def congestion_issue (channel : Int) (n : Nat) : Issue :=
  { type := "channel_congestion"
    severity := "medium"
    description := "Channel " ++ toString channel ++ " has " ++ toString n ++ " networks"
    solution := "Switch to less congested channel" }

/-- One step of the grouping loop of _check_channel_congestion: appends
the network to the entry of its channel, creating the entry at the end on
first sight (Python dict preserves insertion order). -/
def addToChannelGroups (acc : List (Int × List WiFiNetwork)) (nw : WiFiNetwork) :
    List (Int × List WiFiNetwork) :=
  match acc with
  | [] => [(nw.channel, [nw])]
  | g :: rest =>
    if g.1 = nw.channel then (g.1, g.2 ++ [nw]) :: rest
    else g :: addToChannelGroups rest nw

/-- The channel_usage dict of _check_channel_congestion, as an
insertion-ordered association list. -/
def channelGroups (networks : List WiFiNetwork) : List (Int × List WiFiNetwork) :=
  networks.foldl addToChannelGroups []

/-- UltimateWiFiFixer._check_channel_congestion: the issues it appends
for the given scan result. -/
def check_channel_congestion (networks : List WiFiNetwork) : List Issue :=
  if networks.isEmpty then []
  else
    (channelGroups networks).filterMap fun g =>
      if 3 < g.2.length then some (congestion_issue g.1 g.2.length) else none

/-- The issue dict appended by _check_ip_conflicts for a duplicated IP. -/
def ip_conflict_issue (ip : String) : Issue :=
  { type := "ip_conflict"
    severity := "high"
    description := "IP conflict detected: " ++ ip
    solution := "Release and renew IP address" }

/-- The loop of _check_ip_conflicts: `seen` is the key set of the
active_ips dict.  An interface participates only when its ip_address is
truthy (present and non-empty) and its status is exactly "active"; a
participant whose IP was already seen appends an issue, otherwise its IP
is recorded. -/
def check_ip_conflicts_aux : List NetworkInterface → List String → List Issue
  | [], _ => []
  | i :: rest, seen =>
    match i.ip_address with
    | some ip =>
      if ip ≠ "" ∧ i.status = "active" then
        if ip ∈ seen then ip_conflict_issue ip :: check_ip_conflicts_aux rest seen
        else check_ip_conflicts_aux rest (ip :: seen)
      else check_ip_conflicts_aux rest seen
    | none => check_ip_conflicts_aux rest seen

/-- UltimateWiFiFixer._check_ip_conflicts: the issues it appends for the
given interface list. -/
def check_ip_conflicts (interfaces : List NetworkInterface) : List Issue :=
  check_ip_conflicts_aux interfaces []

/-- Specification-side characterization: the IPs of the duplicate
occurrences that _check_ip_conflicts reports, in order (same recursion
as the source loop, recording IPs instead of issue dicts). -/
def conflict_ips_aux : List NetworkInterface → List String → List String
  | [], _ => []
  | i :: rest, seen =>
    match i.ip_address with
    | some ip =>
      if ip ≠ "" ∧ i.status = "active" then
        if ip ∈ seen then ip :: conflict_ips_aux rest seen
        else conflict_ips_aux rest (ip :: seen)
      else conflict_ips_aux rest seen
    | none => conflict_ips_aux rest seen

/-- Duplicate-occurrence IPs reported by the conflict rule. -/
def conflict_ips (interfaces : List NetworkInterface) : List String :=
  conflict_ips_aux interfaces []

/-- Number of interfaces that the conflict rule counts for address a:
ip_address equal to a and status exactly "active". -/
def active_ip_count (interfaces : List NetworkInterface) (a : String) : Nat :=
  interfaces.countP fun i => i.ip_address == some a && i.status == "active"

/-- Specification-side characterization of which lines of the
`nmcli device show` output contribute a DNS entry, following the
elif chain of the source loop. -/
def nmcli_dns_of_line (line : String) : Option String :=
  if pyStartsWith line "IP4.ADDRESS" then none
  else if pyStartsWith line "IP4.GATEWAY" then none
  else if pyStartsWith line "IP4.DNS" then
    (let d := pyStrip ((pyAfterColon line).getD "")
     if d == "" then none else some d)
  else none

/-- Lookup in an insertion-ordered channel group list. -/
def lookupChannelGroup (c : Int) : List (Int × List WiFiNetwork) → Option (List WiFiNetwork)
  | [] => none
  | g :: rest => if g.1 = c then some g.2 else lookupChannelGroup c rest

/-- The command string run per WiFi interface by
_fix_wifi_power_management. -/
def wifi_pm_cmd (name : String) : String :=
  "sudo iwconfig " ++ name ++ " power off"

/-- The loop of _fix_wifi_power_management over the WiFi interfaces:
runs the power-off command on each in turn and returns a successful
FixResult at the first command that succeeds; if none does, reports
failure.  `exec` abstracts run_command on this system state, mapping the
command string to its (success, stdout, stderr) triple. -/
def fix_wifi_power_management_go (exec : String → Bool × String × String) :
    List NetworkInterface → FixResult
  | [] => { issue := "wifi_power_management"
            fix := "Failed to disable power management"
            success := false }
  | i :: rest =>
    if (exec (wifi_pm_cmd i.name)).1 then
      { issue := "wifi_power_management"
        fix := "Disabled power management on " ++ i.name
        success := true }
    else fix_wifi_power_management_go exec rest

/-- UltimateWiFiFixer._fix_wifi_power_management. -/
def fix_wifi_power_management (interfaces : List NetworkInterface)
    (exec : String → Bool × String × String) : FixResult :=
  fix_wifi_power_management_go exec (interfaces.filter fun i => i.type == "WiFi")

/-- UltimateWiFiFixer._fix_vpn_dns_issues: success is the conjunction of
the two invoked commands. -/
def fix_vpn_dns_issues (exec : String → Bool × String × String) : FixResult :=
  { issue := "vpn_dns_issue"
    fix := "Cleared VPN DNS cache"
    success := (exec "sudo dscacheutil -flushcache").1 &&
               (exec "sudo killall -HUP mDNSResponder").1 }

/-- UltimateWiFiFixer._optimize_wifi_connection: the weak-signal
remediation, a placeholder invoking no command and reporting success
unconditionally. -/
def optimize_wifi_connection : FixResult :=
  { issue := "weak_signal"
    fix := "Applied WiFi optimization settings"
    success := true }

/-- A bare interface record with the given status and IP, for exercising
the IP-conflict rule. -/
def plainIface (st ip : String) : NetworkInterface :=
  { name := "if0"
    type := "Ethernet"
    status := st
    mac_address := ""
    ip_address := some ip
    gateway := none
    dns_servers := []
    signal_strength := none
    frequency := none
    channel := none }

/-- The scenario of the spec: two active interfaces and one inactive
interface all holding 192.168.1.5. -/
def c5Scenario : List NetworkInterface :=
  [plainIface "active" "192.168.1.5",
   plainIface "active" "192.168.1.5",
   plainIface "inactive" "192.168.1.5"]

/-- Three active interfaces all holding 10.0.0.7. -/
def c5ThreeActive : List NetworkInterface :=
  [plainIface "active" "10.0.0.7",
   plainIface "active" "10.0.0.7",
   plainIface "active" "10.0.0.7"]

/-- A scan entry on the given channel, for exercising the congestion
rule. -/
def plainNet (ch : Int) : WiFiNetwork :=
  { ssid := "net"
    bssid := ""
    channel := ch
    frequency := "2.4 GHz"
    signal_strength := -60
    quality := 70
    encryption := "WPA2"
    vendor := none }

/-- Networks on channels 1,1,1,1,6,6 as in the spec scenario. -/
def c6Scenario : List WiFiNetwork :=
  [plainNet 1, plainNet 1, plainNet 1, plainNet 1, plainNet 6, plainNet 6]

/-- A WiFi interface record with the given name, for exercising the
power-management fix loop. -/
def wifiIface (nm : String) : NetworkInterface :=
  { name := nm
    type := "WiFi"
    status := "connected"
    mac_address := ""
    ip_address := none
    gateway := none
    dns_servers := []
    signal_strength := none
    frequency := none
    channel := none }

/-- A system state in which the power-off command fails on wlan0 and
succeeds on wlan1. -/
def c8Exec : String → Bool × String × String :=
  fun cmd => (cmd == wifi_pm_cmd "wlan1", "", "")

/-- Output of `nmcli device show` holding the same DNS server on two
IP4.DNS lines. -/
def c7IpShowOutput : String :=
  "IP4.ADDRESS[1]:192.168.1.2/24\nIP4.GATEWAY:192.168.1.1\nIP4.DNS[1]:8.8.8.8\nIP4.DNS[2]:8.8.8.8"

/-- Regex oracles for a scutil --dns output in which 8.8.8.8 is listed
by two resolvers and 1.1.1.1 by one. -/
def c7MacRegex : MacRegex :=
  { inet := fun _ => none
    nameservers := fun _ => ["8.8.8.8", "8.8.8.8", "1.1.1.1"]
    rssi := fun _ => none
    airportChannel := fun _ => none
    ghz := fun _ => none }

/-- Command results for a legacy-path interface carrying 192.168.1.5. -/
def c9LegacyCmds : LegacyCmds :=
  { sysfsExists := true
    ipAddrShow := (true, "2: eth0: inet 192.168.1.5/24", "")
    macCat := (false, "", "")
    iwconfigRes := (false, "", "")
    iwlistChan := (false, "", "") }

/-- Regex oracles matching 192.168.1.5 in the `ip addr show` output. -/
def c9LegacyRegex : LegacyRegex :=
  { inet := fun _ => some "192.168.1.5"
    signalLevel := fun _ => none
    freqGhz := fun _ => none
    currentChannel := fun _ => none }

/-- The record the legacy parser produces from c9LegacyCmds: status "up",
never "active". -/
def c9LegacyIface : NetworkInterface :=
  { name := "eth0"
    type := "Ethernet"
    status := "up"
    mac_address := ""
    ip_address := some "192.168.1.5"
    gateway := none
    dns_servers := []
    signal_strength := none
    frequency := none
    channel := none }

/-- A connected nmcli-path interface carrying the same 192.168.1.5. -/
def c9NmcliIface : NetworkInterface :=
  parse_linux_interface_nmcli "wlan0" "wifi" "connected" "Home"
    (true, "IP4.ADDRESS[1]:192.168.1.5/24", "") (false, "", "") (false, "", "")
    (fun _ => some "192.168.1.5")

/-- An iwlist cell in which every probed field is absent. -/
def c10EmptyCell : IwlistCell :=
  { essid := none
    address := none
    channel := none
    signal := none
    privacyOn := false
    hasWPA2 := false
    hasWPA := false }

/-- C1: calculate_wifi_quality is the five-bucket step function of the
spec — signal at least -50 gives 100, at least -60 gives 70, at least
-70 gives 50, at least -80 gives 30, anything lower gives 10 — total
over all integers, and its result is always one of 100, 70, 50, 30, 10. -/
theorem C1_quality_buckets (s : Int) :
    (-50 ≤ s → calculate_wifi_quality s = 100) ∧
    (-60 ≤ s → s < -50 → calculate_wifi_quality s = 70) ∧
    (-70 ≤ s → s < -60 → calculate_wifi_quality s = 50) ∧
    (-80 ≤ s → s < -70 → calculate_wifi_quality s = 30) ∧
    (s < -80 → calculate_wifi_quality s = 10) ∧
    (calculate_wifi_quality s = 100 ∨ calculate_wifi_quality s = 70 ∨
      calculate_wifi_quality s = 50 ∨ calculate_wifi_quality s = 30 ∨
      calculate_wifi_quality s = 10) := by
  unfold calculate_wifi_quality
  refine ⟨?_, ?_, ?_, ?_, ?_, ?_⟩ <;> intros <;> split_ifs <;> omega

/-- Witness for C1 at signal -55: the second bucket applies. -/
theorem C1_quality_buckets_witness : calculate_wifi_quality (-55) = 70 :=
  (C1_quality_buckets (-55)).2.1 (by decide) (by decide)

/-- C2: run_command turns every execution outcome into a (success,
stdout, stderr) triple — a timeout yields (false, "", "Command timed out
after Ns") with the given timeout N, any other raised failure yields
(false, "", message), a completed process yields success exactly when
its return code is zero together with its captured streams, and a
zero-exit command printing "ok" yields (true, "ok", ""); totality of the
Lean function models that no exception escapes this boundary. -/
theorem C2_run_command_contract (t : Nat) (rc : Int) (out err msg : String) :
    run_command .timedOut t =
      (false, "", "Command timed out after " ++ toString t ++ "s") ∧
    run_command (.raised msg) t = (false, "", msg) ∧
    run_command (.completed rc out err) t = (rc == 0, out, err) ∧
    run_command (.completed 0 "ok" "") t = (true, "ok", "") := by
  refine ⟨rfl, rfl, rfl, ?_⟩
  simp [run_command]

/-- C3: code bug — on the nmcli path the SIGNAL column of a connected wifi device
column (a percentage parsed from a digit-only string, here 80) is stored
in signal_strength, a positive value, although the data model, the
weak-signal rule and the report treat the field as non-positive dBm. -/
theorem C3_nmcli_signal_positive :
    (parse_linux_interface_nmcli "wlan0" "wifi" "connected" "HomeWiFi"
        (true, "", "") (true, "aa:bb:cc:dd:ee:ff\n", "")
        (true, "*:80:2437 MHz:6", "") (fun _ => none)).signal_strength = some 80 ∧
    ¬ ((80 : Int) ≤ 0) := by
  decide

/-- C4 counterexample: the quality function is not non-increasing — at
the concrete pair -90 ≤ -40 the claimed inequality
quality(-90) ≥ quality(-40) fails (10 < 100). -/
theorem C4_claim_false :
    ((-90 : Int) ≤ -40) ∧
      ¬ (calculate_wifi_quality (-40) ≤ calculate_wifi_quality (-90)) := by
  decide

/-- C4 amended: calculate_wifi_quality is monotonically non-decreasing
in the signal strength. -/
theorem C4_quality_monotone (s1 s2 : Int) (h : s1 ≤ s2) :
    calculate_wifi_quality s1 ≤ calculate_wifi_quality s2 := by
  unfold calculate_wifi_quality
  split_ifs <;> omega

/-- Witness for C4_quality_monotone at -80 ≤ -60. -/
theorem C4_quality_monotone_witness :
    calculate_wifi_quality (-80) ≤ calculate_wifi_quality (-60) :=
  C4_quality_monotone (-80) (-60) (by decide)

/-- C8 counterexample: with two WiFi interfaces where the power-off
command fails on wlan0 and succeeds on wlan1, the fix invokes both
commands yet reports success = true, while the conjunction of the
success flags of the invoked commands is false. -/
theorem C8_claim_false :
    (fix_wifi_power_management [wifiIface "wlan0", wifiIface "wlan1"]
        c8Exec).success = true ∧
    (c8Exec (wifi_pm_cmd "wlan0")).1 = false ∧
    ((c8Exec (wifi_pm_cmd "wlan0")).1 && (c8Exec (wifi_pm_cmd "wlan1")).1)
      = false := by
  decide

/-- C8 amended: _fix_wifi_power_management reports success exactly when
the power-off command succeeds on some WiFi interface (it stops at the
first success and ignores earlier failures); _fix_vpn_dns_issues takes
the conjunction of the success flags of its two commands; the weak-signal
remediation _optimize_wifi_connection invokes no command and reports
success unconditionally. -/
theorem C8_fix_success_characterization (interfaces : List NetworkInterface)
    (exec : String → Bool × String × String) :
    (fix_wifi_power_management interfaces exec).success =
      ((interfaces.filter fun i => i.type == "WiFi").any
        fun i => (exec (wifi_pm_cmd i.name)).1) ∧
    (fix_vpn_dns_issues exec).success =
      ((exec "sudo dscacheutil -flushcache").1 &&
        (exec "sudo killall -HUP mDNSResponder").1) ∧
    optimize_wifi_connection.success = true := by
  refine ⟨?_, rfl, rfl⟩
  unfold fix_wifi_power_management
  induction interfaces.filter fun i => i.type == "WiFi" with
  | nil => rfl
  | cons i rest ih =>
    simp only [fix_wifi_power_management_go, List.any_cons]
    split <;> simp_all

/-- C10: the iwlist cell parser defaults — absent ESSID gives ssid
"Hidden", absent address gives bssid "", absent channel gives channel 0
and hence the "2.4 GHz" band label, absent signal level gives
signal_strength -100 and hence quality 10 — and the scan parser
processes every cell, no cell aborting the rest. -/
theorem C10_iwlist_defaults (c : IwlistCell) (cells : List IwlistCell) :
    (c.essid = none → (parse_iwlist_cell c).ssid = "Hidden") ∧
    (c.address = none → (parse_iwlist_cell c).bssid = "") ∧
    (c.channel = none → (parse_iwlist_cell c).channel = 0 ∧
      (parse_iwlist_cell c).frequency = "2.4 GHz") ∧
    (c.signal = none → (parse_iwlist_cell c).signal_strength = -100 ∧
      (parse_iwlist_cell c).quality = 10) ∧
    (parse_iwlist_scan cells).length = cells.length := by
  refine ⟨?_, ?_, ?_, ?_, ?_⟩
  · intro h; simp [parse_iwlist_cell, h]
  · intro h; simp [parse_iwlist_cell, h]
  · intro h; simp [parse_iwlist_cell, h]
  · intro h; simp [parse_iwlist_cell, h, calculate_wifi_quality]
  · simp [parse_iwlist_scan]

/-- Witness for C10 on a cell with every probed field absent. -/
theorem C10_iwlist_defaults_witness :
    (parse_iwlist_cell c10EmptyCell).ssid = "Hidden" ∧
    (parse_iwlist_cell c10EmptyCell).bssid = "" ∧
    (parse_iwlist_cell c10EmptyCell).channel = 0 ∧
    (parse_iwlist_cell c10EmptyCell).frequency = "2.4 GHz" ∧
    (parse_iwlist_cell c10EmptyCell).signal_strength = -100 ∧
    (parse_iwlist_cell c10EmptyCell).quality = 10 :=
  ⟨(C10_iwlist_defaults c10EmptyCell []).1 rfl,
   (C10_iwlist_defaults c10EmptyCell []).2.1 rfl,
   ((C10_iwlist_defaults c10EmptyCell []).2.2.1 rfl).1,
   ((C10_iwlist_defaults c10EmptyCell []).2.2.1 rfl).2,
   ((C10_iwlist_defaults c10EmptyCell []).2.2.2.1 rfl).1,
   ((C10_iwlist_defaults c10EmptyCell []).2.2.2.1 rfl).2⟩

/-- The conflict loop produces exactly the issue dicts of the duplicate
occurrences it encounters, in order. -/
theorem check_ip_conflicts_aux_eq_map (l : List NetworkInterface) :
    ∀ seen, check_ip_conflicts_aux l seen =
      (conflict_ips_aux l seen).map ip_conflict_issue := by
  induction l with
  | nil => intro seen; rfl
  | cons i rest ih =>
    intro seen
    cases hip : i.ip_address with
    | none =>
      simp only [check_ip_conflicts_aux, conflict_ips_aux, hip]
      exact ih seen
    | some ip =>
      simp only [check_ip_conflicts_aux, conflict_ips_aux, hip]
      split_ifs with hg hs
      · simp [ih seen]
      · exact ih (ip :: seen)
      · exact ih seen

/-- Occurrence count of an address in the duplicate-occurrence list:
relative to the already-seen set, each active holder of a non-empty
address beyond the first contributes one. -/
theorem conflict_ips_aux_count (a : String) (ha : a ≠ "")
    (l : List NetworkInterface) :
    ∀ seen, (conflict_ips_aux l seen).count a =
      active_ip_count l a - (if a ∈ seen then 0 else 1) := by
  induction l with
  | nil => intro seen; simp [conflict_ips_aux, active_ip_count]
  | cons i rest ih =>
    intro seen
    cases hip : i.ip_address with
    | none =>
      have hcnt : active_ip_count (i :: rest) a = active_ip_count rest a := by
        simp [active_ip_count, List.countP_cons, hip]
      simp only [conflict_ips_aux, hip]
      rw [hcnt]
      exact ih seen
    | some ip =>
      simp only [conflict_ips_aux, hip]
      by_cases hg : ip ≠ "" ∧ i.status = "active"
      · rw [if_pos hg]
        by_cases hs : ip ∈ seen
        · rw [if_pos hs]
          by_cases hpa : ip = a
          · have h1 : (ip == a) = true := by simp [hpa]
            have hmem : a ∈ seen := hpa ▸ hs
            have hcnt : active_ip_count (i :: rest) a = active_ip_count rest a + 1 := by
              simp [active_ip_count, List.countP_cons, hip, hpa, hg.2]
            rw [List.count_cons, ih seen, hcnt]
            simp [h1, hmem]
          · have h1 : (ip == a) = false := by
              simp only [beq_eq_false_iff_ne, ne_eq]
              exact hpa
            have hcnt : active_ip_count (i :: rest) a = active_ip_count rest a := by
              simp [active_ip_count, List.countP_cons, hip, hpa]
            rw [List.count_cons, ih seen, hcnt]
            simp [h1]
        · rw [if_neg hs]
          rw [ih (ip :: seen)]
          by_cases hpa : ip = a
          · have hmemc : a ∈ ip :: seen := List.mem_cons.mpr (Or.inl hpa.symm)
            have hnm : a ∉ seen := fun h => hs (by rwa [hpa])
            have hcnt : active_ip_count (i :: rest) a = active_ip_count rest a + 1 := by
              simp [active_ip_count, List.countP_cons, hip, hpa, hg.2]
            rw [if_pos hmemc, if_neg hnm, hcnt]
            omega
          · have hne : ¬ (a = ip) := fun h => hpa h.symm
            have hmemc : (a ∈ ip :: seen) = (a ∈ seen) := by
              simp [List.mem_cons, hne]
            have hcnt : active_ip_count (i :: rest) a = active_ip_count rest a := by
              simp [active_ip_count, List.countP_cons, hip, hpa]
            rw [hcnt]
            simp only [hmemc]
      · rw [if_neg hg]
        have hp : (i.ip_address == some a && i.status == "active") = false := by
          rw [hip]
          by_cases h1 : ip = a
          · by_cases h2 : i.status = "active"
            · have hipne : ip ≠ "" := fun hip0 => ha (h1.symm.trans hip0)
              exact absurd ⟨hipne, h2⟩ hg
            · simp [h2]
          · simp [h1]
        have hcnt : active_ip_count (i :: rest) a = active_ip_count rest a := by
          simp [active_ip_count, List.countP_cons, hp]
        rw [hcnt]
        exact ih seen

/-- C5 counterexample: with three active interfaces sharing one IP
address the rule reports two issues, not exactly one per duplicated
IP. -/
theorem C5_claim_false :
    (check_ip_conflicts c5ThreeActive).length = 2 ∧
    ¬ ((check_ip_conflicts c5ThreeActive).length = 1) := by
  decide

/-- C5 amended: the conflict rule reports one high-severity issue per
duplicate occurrence — one for every active interface after the first
holding a given non-empty IP — each issue referencing that IP; on the
spec scenario of two active and one inactive interface sharing an IP
this still yields exactly one issue. -/
theorem C5_conflict_issue_per_duplicate (l : List NetworkInterface)
    (a : String) (ha : a ≠ "") :
    check_ip_conflicts l = (conflict_ips l).map ip_conflict_issue ∧
    (conflict_ips l).count a = active_ip_count l a - 1 := by
  constructor
  · exact check_ip_conflicts_aux_eq_map l []
  · have h := conflict_ips_aux_count a ha l []
    simpa [conflict_ips] using h

/-- Witness for C5 on the spec scenario: one duplicate occurrence of
192.168.1.5 is reported as exactly one issue referencing it. -/
theorem C5_conflict_issue_per_duplicate_witness :
    check_ip_conflicts c5Scenario =
      (conflict_ips c5Scenario).map ip_conflict_issue ∧
    (conflict_ips c5Scenario).count "192.168.1.5" = 1 := by
  refine ⟨(C5_conflict_issue_per_duplicate c5Scenario "192.168.1.5" (by decide)).1, ?_⟩
  rw [(C5_conflict_issue_per_duplicate c5Scenario "192.168.1.5" (by decide)).2]
  decide

/-- Adding one network to the group list either extends the entry of its
channel or appends a fresh entry. -/
theorem lookup_addToChannelGroups (acc : List (Int × List WiFiNetwork))
    (nw : WiFiNetwork) (c : Int) :
    lookupChannelGroup c (addToChannelGroups acc nw) =
      if nw.channel = c then some ((lookupChannelGroup c acc).getD [] ++ [nw])
      else lookupChannelGroup c acc := by
  induction acc with
  | nil =>
    by_cases hc : nw.channel = c <;>
      simp [addToChannelGroups, lookupChannelGroup, hc]
  | cons g rest ih =>
    by_cases hg : g.1 = nw.channel
    · by_cases hc : nw.channel = c
      · simp [addToChannelGroups, lookupChannelGroup, hg, hc, hg.trans hc]
      · have hgc : ¬ (g.1 = c) := fun h => hc (hg ▸ h)
        simp [addToChannelGroups, lookupChannelGroup, hg, hc, hgc]
    · by_cases hgc : g.1 = c
      · have hc : ¬ (nw.channel = c) := fun h => hg (hgc.trans h.symm)
        have hcn : ¬ (c = nw.channel) := fun h => hc h.symm
        simp [addToChannelGroups, lookupChannelGroup, hg, hgc, hc, hcn]
      · simp [addToChannelGroups, lookupChannelGroup, hg, hgc, ih]

/-- The grouping fold collects, for every channel, exactly the networks
observed on that channel, in order. -/
theorem lookup_channelGroups_foldl (c : Int) (l : List WiFiNetwork) :
    ∀ acc, lookupChannelGroup c (l.foldl addToChannelGroups acc) =
      if (l.filter fun nw => nw.channel == c) = []
      then lookupChannelGroup c acc
      else some ((lookupChannelGroup c acc).getD [] ++
        (l.filter fun nw => nw.channel == c)) := by
  induction l with
  | nil => intro acc; simp
  | cons nw rest ih =>
    intro acc
    simp only [List.foldl_cons]
    rw [ih (addToChannelGroups acc nw)]
    by_cases hc : nw.channel = c
    · have hf : ((nw :: rest).filter fun x => x.channel == c) =
          nw :: (rest.filter fun x => x.channel == c) := by
        simp [List.filter_cons, hc]
      rw [hf, lookup_addToChannelGroups, if_pos hc]
      by_cases he : (rest.filter fun x => x.channel == c) = []
      · simp [he]
      · simp [he]
    · have hf : ((nw :: rest).filter fun x => x.channel == c) =
          rest.filter fun x => x.channel == c := by
        simp [List.filter_cons, hc]
      rw [hf, lookup_addToChannelGroups, if_neg hc]

/-- The key list of the group list gains the channel of the network exactly
when it is new. -/
theorem keys_addToChannelGroups (acc : List (Int × List WiFiNetwork))
    (nw : WiFiNetwork) :
    (addToChannelGroups acc nw).map Prod.fst =
      if nw.channel ∈ acc.map Prod.fst then acc.map Prod.fst
      else acc.map Prod.fst ++ [nw.channel] := by
  induction acc with
  | nil => simp [addToChannelGroups]
  | cons g rest ih =>
    by_cases hg : g.1 = nw.channel
    · simp [addToChannelGroups, hg]
    · have hne : ¬ (nw.channel = g.1) := fun h => hg h.symm
      simp [addToChannelGroups, hg, ih, List.mem_cons, hne]
      by_cases hmem : nw.channel ∈ rest.map Prod.fst <;> simp [hmem, hne]

/-- Channel keys stay duplicate-free through the grouping fold. -/
theorem keys_nodup_foldl (l : List WiFiNetwork) :
    ∀ acc, ((acc.map Prod.fst).Nodup) →
      (((l.foldl addToChannelGroups acc).map Prod.fst).Nodup) := by
  induction l with
  | nil => intro acc h; simpa using h
  | cons nw rest ih =>
    intro acc h
    simp only [List.foldl_cons]
    apply ih
    rw [keys_addToChannelGroups]
    by_cases hmem : nw.channel ∈ acc.map Prod.fst
    · simpa [hmem] using h
    · simp [hmem, List.nodup_append, h]

/-- Emitting one issue for every group beyond the threshold is a map
over the filtered group list. -/
theorem filterMap_congestion (gs : List (Int × List WiFiNetwork)) :
    (gs.filterMap fun g =>
      if 3 < g.2.length then some (congestion_issue g.1 g.2.length) else none) =
    (gs.filter fun g => decide (3 < g.2.length)).map
      fun g => congestion_issue g.1 g.2.length := by
  induction gs with
  | nil => rfl
  | cons g rest ih =>
    by_cases h : 3 < g.2.length <;>
      simp [List.filterMap_cons, List.filter_cons, h, ih]

/-- C6: the congestion rule groups networks by channel — every channel
keys exactly one group holding precisely the networks observed on it —
and produces exactly one medium issue per group with more than 3
networks and none otherwise; on channels 1,1,1,1,6,6 the result is
exactly the single issue for channel 1 with count 4, and none for
channel 6. -/
theorem C6_channel_congestion (l : List WiFiNetwork) (c : Int) :
    lookupChannelGroup c (channelGroups l) =
      (if (l.filter fun nw => nw.channel == c) = [] then none
       else some (l.filter fun nw => nw.channel == c)) ∧
    ((channelGroups l).map Prod.fst).Nodup ∧
    check_channel_congestion l =
      ((channelGroups l).filter fun g => decide (3 < g.2.length)).map
        (fun g => congestion_issue g.1 g.2.length) ∧
    check_channel_congestion c6Scenario = [congestion_issue 1 4] := by
  refine ⟨?_, ?_, ?_, ?_⟩
  · have h := lookup_channelGroups_foldl c l []
    simpa [channelGroups, lookupChannelGroup] using h
  · exact keys_nodup_foldl l [] (by simp)
  · unfold check_channel_congestion
    cases l with
    | nil => simp [channelGroups]
    | cons x xs => simp [channelGroups, filterMap_congestion]
  · decide

/-- The dns_servers component of the nmcli line fold appends exactly one
entry per contributing IP4.DNS line, in order and without
deduplication. -/
theorem nmcliIpStep_dns (ipv4 : String → Option String) (lines : List String) :
    ∀ ip gw ds, ((lines.foldl (nmcliIpStep ipv4) (ip, gw, ds)).2.2) =
      ds ++ lines.filterMap nmcli_dns_of_line := by
  induction lines with
  | nil => intro ip gw ds; simp
  | cons line rest ih =>
    intro ip gw ds
    simp only [List.foldl_cons, List.filterMap_cons]
    by_cases h1 : pyStartsWith line "IP4.ADDRESS"
    · cases hm : ipv4 line <;>
        simp [nmcliIpStep, nmcli_dns_of_line, h1, hm, ih]
    · by_cases h2 : pyStartsWith line "IP4.GATEWAY"
      · simp [nmcliIpStep, nmcli_dns_of_line, h1, h2, ih]
      · by_cases h3 : pyStartsWith line "IP4.DNS"
        · by_cases h4 : pyStrip ((pyAfterColon line).getD "") == ""
          · simp [nmcliIpStep, nmcli_dns_of_line, h1, h2, h3, h4, ih]
          · simp [nmcliIpStep, nmcli_dns_of_line, h1, h2, h3, h4, ih]
        · simp [nmcliIpStep, nmcli_dns_of_line, h1, h2, h3, ih]

/-- C7 counterexample: the Linux nmcli path does not deduplicate — a
device-show output listing the same DNS server on two IP4.DNS lines
yields the address twice in the Interface record. -/
theorem C7_claim_false :
    (parse_linux_interface_nmcli "eth0" "ethernet" "connected" "Wired"
        (true, c7IpShowOutput, "") (true, "", "") (false, "", "")
        (fun _ => none)).dns_servers = ["8.8.8.8", "8.8.8.8"] ∧
    ¬ ((parse_linux_interface_nmcli "eth0" "ethernet" "connected" "Wired"
        (true, c7IpShowOutput, "") (true, "", "") (false, "", "")
        (fun _ => none)).dns_servers.count "8.8.8.8" = 1) := by
  decide

/-- C7 amended: only the macOS scutil path deduplicates DNS servers —
every address the findall produced appears exactly once in the dns_servers
field of the record — while the Linux nmcli path appends one entry per non-empty
IP4.DNS line of the device-show output, preserving duplicates. -/
theorem C7_dns_dedup_paths (a : String) (nameEntry device mac : Option String)
    (ifconfigRes scutilRes airportRes : Bool × String × String) (rx : MacRegex)
    (d t s c : String) (ipShow macCat wifiList : Bool × String × String)
    (ipv4 : String → Option String) :
    (scutilRes.1 = true → a ∈ rx.nameservers scutilRes.2.1 →
      (parse_mac_interface nameEntry device mac ifconfigRes scutilRes airportRes
        rx).dns_servers.count a = 1) ∧
    ((parse_linux_interface_nmcli d t s c ipShow macCat wifiList
        ipv4).dns_servers =
      (if ipShow.1 then (pySplit ipShow.2.1 '\n').filterMap nmcli_dns_of_line
       else [])) := by
  constructor
  · intro hs hm
    simp only [parse_mac_interface, hs, if_true, scutil_dns_servers]
    simp [List.count_dedup, hm]
  · by_cases hi : ipShow.1
    · simp only [parse_linux_interface_nmcli, hi, if_true]
      rw [nmcliIpStep_dns]
      simp
    · simp [parse_linux_interface_nmcli, hi]

/-- Witness for C7 on oracles for a scutil output listing 8.8.8.8 under
two resolvers: the macOS record holds the address once. -/
theorem C7_dns_dedup_paths_witness :
    (parse_mac_interface (some "Wi-Fi") (some "en0") (some "aa:bb")
      (true, "", "") (true, "scutil output", "") (false, "", "")
      c7MacRegex).dns_servers.count "8.8.8.8" = 1 :=
  (C7_dns_dedup_paths "8.8.8.8" (some "Wi-Fi") (some "en0") (some "aa:bb")
      (true, "", "") (true, "scutil output", "") (false, "", "")
      c7MacRegex "d" "t" "s" "c" (true, "", "") (true, "", "") (true, "", "")
      (fun _ => none)).1 rfl (by decide)

/-- Interfaces the legacy parser returns always carry status "up" or
"down". -/
theorem legacy_status_up_or_down (name : String) (cmds : LegacyCmds)
    (rx : LegacyRegex) (i : NetworkInterface)
    (h : parse_linux_interface_legacy name cmds rx = some i) :
    i.status = "up" ∨ i.status = "down" := by
  unfold parse_linux_interface_legacy at h
  by_cases h1 : cmds.sysfsExists
  · by_cases h2 : cmds.ipAddrShow.1
    · simp only [h1, h2, Bool.not_true, Bool.false_eq_true, if_false,
        Option.some.injEq] at h
      subst h
      by_cases h3 : optTruthy (rx.inet cmds.ipAddrShow.2.1)
      · left; simp [h3]
      · right; simp [h3]
    · simp [h1, h2] at h
  · simp [h1] at h

/-- If no interface has status exactly "active", the conflict rule
reports nothing. -/
theorem no_active_no_conflicts (l : List NetworkInterface) :
    ∀ seen, (∀ i ∈ l, i.status ≠ "active") →
      check_ip_conflicts_aux l seen = [] := by
  induction l with
  | nil => intro seen _; rfl
  | cons i rest ih =>
    intro seen h
    have hi := h i (List.mem_cons_self i rest)
    have hr : ∀ j ∈ rest, j.status ≠ "active" :=
      fun j hj => h j (List.mem_cons_of_mem i hj)
    cases hip : i.ip_address with
    | none =>
      simp only [check_ip_conflicts_aux, hip]
      exact ih seen hr
    | some ip =>
      simp only [check_ip_conflicts_aux, hip]
      rw [if_neg (fun hC => hi hC.2)]
      exact ih seen hr

/-- C9: the conflict rule compares status against the exact string
"active", so interfaces built by the legacy parser (whose status is
always "up" or "down") and connected interfaces built by the nmcli
parser (whose status is the raw state string, here "connected") never
contribute an IP-conflict issue, even when they share an IP address. -/
theorem C9_nonactive_parsers_no_conflict (l : List NetworkInterface)
    (h : ∀ i ∈ l,
      (∃ name cmds rx, parse_linux_interface_legacy name cmds rx = some i) ∨
      (∃ d t c ipShow macCat wifiList ipv4,
        i = parse_linux_interface_nmcli d t "connected" c ipShow macCat
          wifiList ipv4)) :
    check_ip_conflicts l = [] := by
  apply no_active_no_conflicts l []
  intro i hi
  rcases h i hi with ⟨name, cmds, rx, hp⟩ |
    ⟨d, t, c, ipShow, macCat, wifiList, ipv4, rfl⟩
  · rcases legacy_status_up_or_down name cmds rx i hp with h1 | h1 <;>
      rw [h1] <;> decide
  · intro hc
    have : ("connected" : String) = "active" := hc
    exact absurd this (by decide)

/-- Witness for C9: a legacy-path interface with status "up" and a
connected nmcli-path interface, both holding 192.168.1.5, produce no
conflict issue. -/
theorem C9_nonactive_parsers_no_conflict_witness :
    check_ip_conflicts [c9LegacyIface, c9NmcliIface] = [] := by
  apply C9_nonactive_parsers_no_conflict
  intro i hi
  rcases List.mem_cons.mp hi with rfl | hi2
  · exact Or.inl ⟨"eth0", c9LegacyCmds, c9LegacyRegex, by decide⟩
  · rcases List.mem_cons.mp hi2 with rfl | h0
    · exact Or.inr ⟨"wlan0", "wifi", "Home",
        (true, "IP4.ADDRESS[1]:192.168.1.5/24", ""), (false, "", ""),
        (false, "", ""), (fun _ => some "192.168.1.5"), rfl⟩
    · exact absurd h0 (List.not_mem_nil i)

end WifiFixer
